import Mathlib

/-!
Shallow embedding of the authority scoring engine (`computeAuthority` and its
signal extractors) of the youtube-banger repository.

Modelling conventions:
* JavaScript numbers are modelled as real numbers (`ℝ`).
* `published_at` timestamps are modelled as already-parsed epoch milliseconds
  (`Option ℝ`); ISO-string parsing by `new Date` is outside the scoring core.
  The current time `Date.now()` is passed explicitly as a parameter `now`.
* `Math.round x` is `⌊x + 1/2⌋` (JavaScript rounds half towards positive
  infinity), `Math.min`/`Math.max` are `min`/`max`, `Math.exp` is `Real.exp`,
  and `Math.log10 x` is `Real.log x / Real.log 10` (they agree on positive
  arguments; JavaScript returns NaN on negative arguments, which the real
  model cannot represent - see the theorem about the engagement log argument).
* JavaScript falsiness of a number (`!views`) is modelled as the value being
  `none` or `0`.
* The stable `Array.prototype.sort` with comparator `(a, b) => b.score - a.score`
  is modelled by the stable `List.insertionSort` with the relation
  `b.score ≤ a.score` (all stable sorts by the same key agree).
-/

/-- Input row shape (`VideoRow` in the source). -/
structure VideoRow where
  id : String
  title : String
  description : Option String
  published_at : Option ℝ
  duration_seconds : Option ℝ
  view_count : Option ℝ
  like_count : Option ℝ
  comment_count : Option ℝ
  channel_id : String
  channel_title : Option String
  subscriber_count : Option ℝ
  thumbnail_url : Option String

/-- The authority lexicon (`AUTHORITY_KEYWORDS` in the source). -/
def AUTHORITY_KEYWORDS : List String :=
  ["metodología", "framework", "arquitectura", "sistema", "pipeline",
   "benchmark", "benchmarking", "caso real", "casos reales", "patrón",
   "patrones", "diseño", "integration", "integración", "productividad",
   "workflow", "trazabilidad", "observabilidad", "calidad", "seguridad",
   "refactor", "refactorización", "escala", "escalable", "latencia",
   "performance", "métricas", "testing", "eval", "evaluación", "coste",
   "costos"]

/-- The clickbait lexicon (`CLICKBAIT_KEYWORDS` in the source). -/
def CLICKBAIT_KEYWORDS : List String :=
  ["no creerás", "increíble", "secreto", "truco", "hack", "viral", "bomba",
   "explota", "impactante", "100x", "x10", "x100",
   "te va a volar la cabeza", "locura", "brutal"]

/-- JavaScript `hay.includes(needle)` substring containment. -/
def strContains (hay needle : String) : Bool :=
  hay.toList.tails.any (fun t => needle.toList.isPrefixOf t)

/-- Number of lexicon keywords occurring in the text (the `hits` loop of
`scoreKeywordDensity` in the source). -/
def countHits (text : String) (keywords : List String) : Nat :=
  (keywords.filter (fun k => strContains text k)).length

/-- The empty string, used to model the JavaScript `?? ""` fallback. -/
def emptyStr : String := ""

/-- Description with the `?? ""` fallback applied. -/
def descOrEmpty (row : VideoRow) : String :=
  match row.description with
  | some d => d
  | none => emptyStr

/-- Character-by-character lowercasing (JavaScript `toLowerCase`; the two
agree on the texts considered here, where only ASCII letters change case). -/
def strLower (s : String) : String :=
  String.mk (s.data.map Char.toLower)

/-- The lowercased title-plus-description text the keyword scorers receive:
the template literal of the source, lowercased. -/
def rowText (row : VideoRow) : String :=
  strLower (row.title ++ " " ++ descOrEmpty row)

/-- Model of `clamp` of the source: `Math.min(Math.max(value, min), max)`. -/
noncomputable def clamp (value lo hi : ℝ) : ℝ :=
  min (max value lo) hi

/-- JavaScript `Math.log10` on its real domain. -/
noncomputable def log10 (x : ℝ) : ℝ :=
  Real.log x / Real.log 10

/-- JavaScript `Math.round`: round half towards positive infinity. -/
noncomputable def jsRound (x : ℝ) : ℤ :=
  ⌊x + 1 / 2⌋

/-- Model of `round` of the source: round to two decimal places. -/
noncomputable def round2 (x : ℝ) : ℝ :=
  (jsRound (x * 100) : ℝ) / 100

/-- Model of `average` of the source: sum divided by length, `0` on the empty list. -/
noncomputable def average (values : List ℝ) : ℝ :=
  if values = [] then 0 else values.sum / values.length

/-- Model of `scoreDepth` of the source (stepwise duration buckets; `!duration` is
falsy for an absent or zero duration). -/
noncomputable def scoreDepth : Option ℝ → ℝ
  | none => 0.2
  | some duration =>
    if duration = 0 then 0.2
    else if duration < 300 then 0.2
    else if duration < 720 then 0.45
    else if duration < 1200 then 0.7
    else if duration < 2100 then 0.9
    else 1

/-- Model of `scoreRecency` of the source: exponential decay with half-life constant
240 over the age in days, neutral default 0.4 when the date is absent. -/
noncomputable def scoreRecency (now : ℝ) : Option ℝ → ℝ
  | none => 0.4
  | some published =>
    Real.exp (-((now - published) / (1000 * 3600 * 24) / 240))

/-- The denominator chosen by `scoreEngagement`: the subscriber count when
present and positive, else the floor of 5000. -/
noncomputable def engagementDenominator : Option ℝ → ℝ
  | none => 5000
  | some s => if 0 < s then s else 5000

/-- The argument handed to `Math.log10` inside `scoreEngagement`
(`1 + ratio * 10` in the source). -/
noncomputable def engagementLogArg (views : ℝ) (subs : Option ℝ) : ℝ :=
  1 + views / engagementDenominator subs * 10

/-- Model of `scoreEngagement` of the source. -/
noncomputable def scoreEngagement (views subs : Option ℝ) : ℝ :=
  match views with
  | none => 0.2
  | some v =>
    if v = 0 then 0.2
    else clamp (log10 (engagementLogArg v subs) / 2) 0 1

/-- Model of `scoreSubscribers` of the source. -/
noncomputable def scoreSubscribers : Option ℝ → ℝ
  | none => 0.2
  | some s =>
    if s = 0 then 0.2
    else clamp (log10 (s + 1) / 6) 0 1

/-- Model of `scoreKeywordDensity` of the source: distinct lexicon hits divided by 4,
clamped to `[0, 1]`; `0` on an empty text. -/
noncomputable def scoreKeywordDensity (text : String) (keywords : List String) : ℝ :=
  if text = emptyStr then 0
  else clamp ((countHits text keywords : ℝ) / 4) 0 1

/-- Model of `latestDate` of the source: the strictly greatest present timestamp,
keeping the first one seen among equals. -/
noncomputable def latestDate (values : List (Option ℝ)) : Option ℝ :=
  values.foldl
    (fun latest v =>
      match v with
      | none => latest
      | some x =>
        match latest with
        | none => some x
        | some y => if y < x then some x else latest)
    none

/-- Per-video signal breakdown (`signals` of a scored video). -/
structure SignalBreakdown where
  depth : ℝ
  methodology : ℝ
  engagement : ℝ
  recency : ℝ
  clickbaitPenalty : ℝ

/-- One scored video, as built inside `computeAuthority`. -/
structure ScoredVideo where
  id : String
  title : String
  channelId : String
  channelTitle : Option String
  thumbnailUrl : Option String
  publishedAt : Option ℝ
  durationSeconds : Option ℝ
  viewCount : Option ℝ
  score : ℤ
  signals : SignalBreakdown

/-- Per-channel signal breakdown. -/
structure ChannelSignals where
  consistency : ℝ
  scale : ℝ
  recency : ℝ

/-- One scored channel, as built inside `computeAuthority`. -/
structure ScoredChannel where
  channelId : String
  title : Option String
  thumbnailUrl : Option String
  subscriberCount : Option ℝ
  avgVideoScore : ℤ
  score : ℤ
  signals : ChannelSignals

/-- The aggregate benchmark block of the report. -/
structure Benchmarks where
  avgVideoScore : ℤ
  avgChannelScore : ℤ
  topVideoScore : ℤ
  topChannelScore : ℤ

/-- The final report returned by `computeAuthority`. -/
structure AuthorityReport where
  benchmarks : Benchmarks
  videos : List ScoredVideo
  channels : List ScoredChannel

/-- The per-row video scorer: the body of the `rows.map` lambda in
`computeAuthority`. -/
noncomputable def scoreVideo (now : ℝ) (row : VideoRow) : ScoredVideo :=
  let text := rowText row
  let depthScore := scoreDepth row.duration_seconds
  let keywordScore := scoreKeywordDensity text AUTHORITY_KEYWORDS
  let clickbaitPenalty := scoreKeywordDensity text CLICKBAIT_KEYWORDS * 0.6
  let engagementScore := scoreEngagement row.view_count row.subscriber_count
  let recencyScore := scoreRecency now row.published_at
  let raw :=
    0.35 * depthScore + 0.25 * keywordScore + 0.2 * engagementScore +
      0.2 * recencyScore - 0.15 * clickbaitPenalty
  let score := clamp raw 0 1 * 100
  { id := row.id
    title := row.title
    channelId := row.channel_id
    channelTitle := row.channel_title
    thumbnailUrl := row.thumbnail_url
    publishedAt := row.published_at
    durationSeconds := row.duration_seconds
    viewCount := row.view_count
    score := jsRound score
    signals :=
      { depth := round2 depthScore
        methodology := round2 keywordScore
        engagement := round2 engagementScore
        recency := round2 recencyScore
        clickbaitPenalty := round2 clickbaitPenalty } }

/-- The rows of one channel group, in input order (the `channelMap` lists). -/
def channelItems (rows : List VideoRow) (cid : String) : List VideoRow :=
  rows.filter (fun r => r.channel_id == cid)

/-- The scored videos of one channel group (`videoScores.filter` in the
source). -/
noncomputable def channelVideoScores (now : ℝ) (rows : List VideoRow) (cid : String) :
    List ScoredVideo :=
  (rows.map (scoreVideo now)).filter (fun v => v.channelId == cid)

/-- The per-channel scorer: the body of the `channelMap` entries lambda in
`computeAuthority`. -/
noncomputable def scoreChannel (now : ℝ) (rows : List VideoRow) (cid : String) :
    ScoredChannel :=
  let items := channelItems rows cid
  let scores := channelVideoScores now rows cid
  let avgVideoScore := average (scores.map (fun s => (s.score : ℝ)))
  let subs := items.head?.bind (fun r => r.subscriber_count)
  let subsScore := scoreSubscribers subs
  let latest := latestDate (items.map (fun item => item.published_at))
  let recencyScore := scoreRecency now latest
  let channelScore :=
    clamp (0.7 * (avgVideoScore / 100) + 0.15 * subsScore + 0.15 * recencyScore) 0 1 * 100
  { channelId := cid
    title := items.head?.bind (fun r => r.channel_title)
    thumbnailUrl := items.head?.bind (fun r => r.thumbnail_url)
    subscriberCount := subs
    avgVideoScore := jsRound avgVideoScore
    score := jsRound channelScore
    signals :=
      { consistency := round2 (avgVideoScore / 100)
        scale := round2 subsScore
        recency := round2 recencyScore } }

/-- First-occurrence deduplication, accumulating the keys already seen:
models the key order of the JavaScript `Map` built by insertion. -/
def dedupKeysAux (seen : List String) : List String → List String
  | [] => []
  | x :: xs =>
    if x ∈ seen then dedupKeysAux seen xs
    else x :: dedupKeysAux (x :: seen) xs

/-- The distinct channel ids in first-occurrence order. -/
def dedupKeys (l : List String) : List String :=
  dedupKeysAux [] l

/-- Descending order by an integer key; the sort relation used to model the
stable JavaScript sort with comparator `(a, b) => b.score - a.score`. -/
def keyDesc {α : Type} (f : α → ℤ) (a b : α) : Prop :=
  f b ≤ f a

instance {α : Type} (f : α → ℤ) : DecidableRel (keyDesc f) :=
  fun a b => inferInstanceAs (Decidable (f b ≤ f a))

instance {α : Type} (f : α → ℤ) : IsTotal α (keyDesc f) :=
  ⟨fun a b => le_total (f b) (f a)⟩

instance {α : Type} (f : α → ℤ) : IsTrans α (keyDesc f) :=
  ⟨fun _ _ _ h1 h2 => le_trans h2 h1⟩

/-- Maximum of a list of scores with the `0` seed of `Math.max(0, ...xs)`. -/
def listMax0 (l : List ℤ) : ℤ :=
  l.foldl max 0

/-- Model of `computeAuthority` of the source: score every row, group by channel id in
first-occurrence order, score every channel, then assemble benchmarks over
the full scored sets and the sorted, truncated display lists. -/
noncomputable def computeAuthority (now : ℝ) (rows : List VideoRow) : AuthorityReport :=
  let videoScores := rows.map (scoreVideo now)
  let channelIds := dedupKeys (rows.map (fun r => r.channel_id))
  let channelScores := channelIds.map (scoreChannel now rows)
  { benchmarks :=
      { avgVideoScore := jsRound (average (videoScores.map (fun v => (v.score : ℝ))))
        avgChannelScore := jsRound (average (channelScores.map (fun c => (c.score : ℝ))))
        topVideoScore := listMax0 (videoScores.map (fun v => v.score))
        topChannelScore := listMax0 (channelScores.map (fun c => c.score)) }
    videos := (List.insertionSort (keyDesc (fun v : ScoredVideo => v.score)) videoScores).take 20
    channels := (List.insertionSort (keyDesc (fun c : ScoredChannel => c.score)) channelScores).take 12 }

/-- Modelled from the claim of C1: the video score formula with the clickbait
penalty taken to be the clickbait keyword density itself (without the 0.6
scale factor the source applies). -/
noncomputable def claimVideoScore (now : ℝ) (row : VideoRow) : ℤ :=
  jsRound
    (clamp
      (0.35 * scoreDepth row.duration_seconds +
        0.25 * scoreKeywordDensity (rowText row) AUTHORITY_KEYWORDS +
        0.2 * scoreEngagement row.view_count row.subscriber_count +
        0.2 * scoreRecency now row.published_at -
        0.15 * scoreKeywordDensity (rowText row) CLICKBAIT_KEYWORDS) 0 1 * 100)

/-- Modelled from the claim of C3: the channel score formula computed from
the mean video score already rounded to an integer (the source rounds only
the reported field, not the value used in the weighting). -/
noncomputable def claimChannelScore (now : ℝ) (rows : List VideoRow) (cid : String) : ℤ :=
  let items := channelItems rows cid
  let scores := channelVideoScores now rows cid
  let avgRounded : ℤ := jsRound (average (scores.map (fun s => (s.score : ℝ))))
  jsRound
    (clamp
      (0.7 * ((avgRounded : ℝ) / 100) +
        0.15 * scoreSubscribers (items.head?.bind (fun r => r.subscriber_count)) +
        0.15 * scoreRecency now (latestDate (items.map (fun item => item.published_at)))) 0 1 * 100)

/-- Well-typedness of a row in the sense of C4: every optional numeric field
is absent or non-negative. -/
def rowWellTyped (r : VideoRow) : Prop :=
  (∀ x, r.duration_seconds = some x → 0 ≤ x) ∧
  (∀ x, r.view_count = some x → 0 ≤ x) ∧
  (∀ x, r.like_count = some x → 0 ≤ x) ∧
  (∀ x, r.comment_count = some x → 0 ≤ x) ∧
  (∀ x, r.subscriber_count = some x → 0 ≤ x)

/-- Channel id used by the concrete test rows. -/
def cid1 : String := "c1"

/-- A row whose title holds four distinct clickbait keywords and no authority
keyword; every optional field absent. -/
def rowCB : VideoRow :=
  { id := "v1"
    title := "increíble secreto truco hack"
    description := none
    published_at := none
    duration_seconds := none
    view_count := none
    like_count := none
    comment_count := none
    channel_id := cid1
    channel_title := none
    subscriber_count := none
    thumbnail_url := none }

/-- A 40-minute video with three authority keywords in the title. -/
def row1 : VideoRow :=
  { id := "v1"
    title := "framework pipeline benchmark"
    description := none
    published_at := none
    duration_seconds := some 2400
    view_count := none
    like_count := none
    comment_count := none
    channel_id := cid1
    channel_title := none
    subscriber_count := none
    thumbnail_url := none }

/-- A 13-minute video with the same three authority keywords. -/
def row2 : VideoRow :=
  { id := "v2"
    title := "framework pipeline benchmark"
    description := none
    published_at := none
    duration_seconds := some 800
    view_count := none
    like_count := none
    comment_count := none
    channel_id := cid1
    channel_title := none
    subscriber_count := none
    thumbnail_url := none }

/-- Two videos of one channel whose scores (66 and 55) average to 60.5. -/
def rows3 : List VideoRow :=
  [row1, row2]

theorem clamp_nonneg (x : ℝ) : 0 ≤ clamp x 0 1 := by
  rw [clamp]
  have h1 : (0:ℝ) ≤ max x 0 := le_max_right x 0
  exact le_min h1 (by norm_num)

theorem clamp_le_one (x : ℝ) : clamp x 0 1 ≤ 1 :=
  min_le_right _ _

theorem clamp_eq_of_mem {x : ℝ} (h0 : 0 ≤ x) (h1 : x ≤ 1) : clamp x 0 1 = x := by
  rw [clamp, max_eq_left h0, min_eq_left h1]

theorem clamp_eq_one_of_ge {x : ℝ} (h : 1 ≤ x) : clamp x 0 1 = 1 := by
  rw [clamp, max_eq_left (le_trans zero_le_one h), min_eq_right h]

theorem jsRound_le_of_le {x : ℝ} {n : ℤ} (h : x ≤ n) : jsRound x ≤ n := by
  rw [jsRound]
  have : jsRound x < n + 1 := Int.floor_lt.mpr (by push_cast; linarith)
  rw [jsRound] at this
  omega

theorem le_jsRound_of_le {x : ℝ} {n : ℤ} (h : (n:ℝ) ≤ x + 1 / 2) : n ≤ jsRound x :=
  Int.le_floor.mpr h

theorem jsRound_bounds {x : ℝ} (h0 : 0 ≤ x) (h1 : x ≤ 100) :
    0 ≤ jsRound x ∧ jsRound x ≤ 100 :=
  ⟨le_jsRound_of_le (by push_cast; linarith), jsRound_le_of_le (by push_cast; linarith)⟩

theorem jsRound_eq {x : ℝ} {n : ℤ} (h1 : (n:ℝ) ≤ x + 1 / 2) (h2 : x + 1 / 2 < n + 1) :
    jsRound x = n := by
  rw [jsRound, Int.floor_eq_iff]
  exact ⟨h1, h2⟩

/-! ## Bounds of the signal extractors -/

theorem scoreDepth_bounds (d : Option ℝ) : 0.2 ≤ scoreDepth d ∧ scoreDepth d ≤ 1 := by
  match d with
  | none => norm_num [scoreDepth]
  | some x =>
    rw [scoreDepth]
    split_ifs <;> norm_num

theorem scoreKeywordDensity_nonneg (t : String) (k : List String) :
    0 ≤ scoreKeywordDensity t k := by
  rw [scoreKeywordDensity]
  split_ifs
  · exact le_refl 0
  · exact clamp_nonneg _

theorem scoreKeywordDensity_le_one (t : String) (k : List String) :
    scoreKeywordDensity t k ≤ 1 := by
  rw [scoreKeywordDensity]
  split_ifs
  · exact zero_le_one
  · exact clamp_le_one _

theorem scoreKeywordDensity_of_hits_zero {t : String} {k : List String}
    (h : countHits t k = 0) : scoreKeywordDensity t k = 0 := by
  rw [scoreKeywordDensity, h]
  split_ifs
  · rfl
  · rw [show ((0:ℕ):ℝ) / 4 = 0 by norm_num, clamp_eq_of_mem le_rfl zero_le_one]

theorem scoreKeywordDensity_of_hits {t : String} {k : List String} {n : ℕ}
    (h : countHits t k = n) (hne : t ≠ emptyStr) :
    scoreKeywordDensity t k = clamp ((n : ℝ) / 4) 0 1 := by
  rw [scoreKeywordDensity, if_neg hne, h]

theorem scoreKeywordDensity_eq_one {t : String} {k : List String}
    (h : 4 ≤ countHits t k) (hne : t ≠ emptyStr) :
    scoreKeywordDensity t k = 1 := by
  rw [scoreKeywordDensity_of_hits rfl hne]
  refine clamp_eq_one_of_ge ?_
  have : (4:ℝ) ≤ (countHits t k : ℝ) := by exact_mod_cast h
  linarith

theorem scoreEngagement_bounds (v s : Option ℝ) :
    0 ≤ scoreEngagement v s ∧ scoreEngagement v s ≤ 1 := by
  match v with
  | none => norm_num [scoreEngagement]
  | some x =>
    rw [scoreEngagement]
    split_ifs
    · norm_num
    · exact ⟨clamp_nonneg _, clamp_le_one _⟩

theorem scoreRecency_pos (now : ℝ) (v : Option ℝ) : 0 < scoreRecency now v := by
  match v with
  | none => norm_num [scoreRecency]
  | some p =>
    rw [scoreRecency]
    exact Real.exp_pos _

theorem scoreRecency_le_one_of_past {now p : ℝ} (h : p ≤ now) :
    scoreRecency now (some p) ≤ 1 := by
  rw [scoreRecency, Real.exp_le_one_iff]
  have h1 : 0 ≤ (now - p) / (1000 * 3600 * 24) / 240 :=
    div_nonneg (div_nonneg (by linarith) (by norm_num)) (by norm_num)
  linarith

/-! ## Lemmas about the sorted, truncated display lists -/

theorem sortTake_length {α : Type} (f : α → ℤ) (l : List α) (n : ℕ) :
    ((List.insertionSort (keyDesc f) l).take n).length = min n l.length := by
  rw [List.length_take, (List.perm_insertionSort (keyDesc f) l).length_eq]

theorem sortTake_subset {α : Type} (f : α → ℤ) (l : List α) (n : ℕ) {a : α}
    (h : a ∈ (List.insertionSort (keyDesc f) l).take n) : a ∈ l :=
  (List.perm_insertionSort (keyDesc f) l).mem_iff.mp ((List.take_sublist n _).subset h)

theorem sortTake_sorted {α : Type} (f : α → ℤ) (l : List α) (n : ℕ) :
    List.Sorted (keyDesc f) ((List.insertionSort (keyDesc f) l).take n) :=
  (List.sorted_insertionSort (keyDesc f) l).sublist (List.take_sublist n _)

theorem sortTake_append_drop_perm {α : Type} (f : α → ℤ) (l : List α) (n : ℕ) :
    List.Perm ((List.insertionSort (keyDesc f) l).take n ++
      (List.insertionSort (keyDesc f) l).drop n) l := by
  rw [List.take_append_drop]
  exact List.perm_insertionSort _ _

theorem sortTake_ge_drop {α : Type} (f : α → ℤ) (l : List α) (n : ℕ) {a b : α}
    (ha : a ∈ (List.insertionSort (keyDesc f) l).take n)
    (hb : b ∈ (List.insertionSort (keyDesc f) l).drop n) : f b ≤ f a := by
  have hs := List.sorted_insertionSort (keyDesc f) l
  rw [List.Sorted, ← List.take_append_drop n (List.insertionSort (keyDesc f) l),
    List.pairwise_append] at hs
  exact hs.2.2 a ha b hb

/-! ## Projection lemmas of the scorers -/

theorem scoreVideo_score (now : ℝ) (row : VideoRow) : (scoreVideo now row).score =
    jsRound (clamp (0.35 * scoreDepth row.duration_seconds +
      0.25 * scoreKeywordDensity (rowText row) AUTHORITY_KEYWORDS +
      0.2 * scoreEngagement row.view_count row.subscriber_count +
      0.2 * scoreRecency now row.published_at -
      0.15 * (scoreKeywordDensity (rowText row) CLICKBAIT_KEYWORDS * 0.6)) 0 1 * 100) := rfl

theorem scoreVideo_channelId (now : ℝ) (row : VideoRow) :
    (scoreVideo now row).channelId = row.channel_id := rfl

theorem scoreVideo_clickbait_signal (now : ℝ) (row : VideoRow) :
    (scoreVideo now row).signals.clickbaitPenalty =
    round2 (scoreKeywordDensity (rowText row) CLICKBAIT_KEYWORDS * 0.6) := rfl

theorem scoreChannel_score_eq (now : ℝ) (rows : List VideoRow) (cid : String) :
    (scoreChannel now rows cid).score =
    jsRound (clamp
      (0.7 * (average ((channelVideoScores now rows cid).map (fun s => (s.score : ℝ))) / 100) +
        0.15 * scoreSubscribers ((channelItems rows cid).head?.bind (fun r => r.subscriber_count)) +
        0.15 * scoreRecency now (latestDate ((channelItems rows cid).map (fun item => item.published_at))))
      0 1 * 100) := rfl

theorem scoreChannel_channelId (now : ℝ) (rows : List VideoRow) (cid : String) :
    (scoreChannel now rows cid).channelId = cid := rfl

theorem scoreChannel_avg_eq (now : ℝ) (rows : List VideoRow) (cid : String) :
    (scoreChannel now rows cid).avgVideoScore =
    jsRound (average ((channelVideoScores now rows cid).map (fun s => (s.score : ℝ)))) := rfl

/-! ## Concrete evaluations on the test rows -/

theorem scoreVideo_rowCB_score : (scoreVideo 0 rowCB).score = 10 := by
  have hcb : scoreKeywordDensity (rowText rowCB) CLICKBAIT_KEYWORDS = 1 :=
    scoreKeywordDensity_eq_one (by decide) (by decide)
  have hau : scoreKeywordDensity (rowText rowCB) AUTHORITY_KEYWORDS = 0 :=
    scoreKeywordDensity_of_hits_zero (by decide)
  rw [scoreVideo_score, hcb, hau]
  norm_num [rowCB, scoreDepth, scoreEngagement, scoreRecency, clamp, jsRound]

theorem scoreVideo_row1_score : (scoreVideo 0 row1).score = 66 := by
  have hau : scoreKeywordDensity (rowText row1) AUTHORITY_KEYWORDS = clamp (((3:ℕ) : ℝ) / 4) 0 1 :=
    scoreKeywordDensity_of_hits (by decide) (by decide)
  have hcb : scoreKeywordDensity (rowText row1) CLICKBAIT_KEYWORDS = 0 :=
    scoreKeywordDensity_of_hits_zero (by decide)
  rw [scoreVideo_score, hau, hcb]
  norm_num [row1, scoreDepth, scoreEngagement, scoreRecency, clamp, jsRound]

theorem scoreVideo_row2_score : (scoreVideo 0 row2).score = 55 := by
  have hau : scoreKeywordDensity (rowText row2) AUTHORITY_KEYWORDS = clamp (((3:ℕ) : ℝ) / 4) 0 1 :=
    scoreKeywordDensity_of_hits (by decide) (by decide)
  have hcb : scoreKeywordDensity (rowText row2) CLICKBAIT_KEYWORDS = 0 :=
    scoreKeywordDensity_of_hits_zero (by decide)
  rw [scoreVideo_score, hau, hcb]
  norm_num [row2, scoreDepth, scoreEngagement, scoreRecency, clamp, jsRound]

theorem channelVideoScores_rows3 :
    channelVideoScores 0 rows3 cid1 = [scoreVideo 0 row1, scoreVideo 0 row2] := by
  simp [channelVideoScores, rows3, scoreVideo_channelId, row1, row2]

theorem channelItems_rows3 : channelItems rows3 cid1 = [row1, row2] := by
  simp [channelItems, rows3, row1, row2]

theorem avg_rows3 :
    average ((channelVideoScores 0 rows3 cid1).map (fun s => (s.score : ℝ))) = 60.5 := by
  rw [channelVideoScores_rows3]
  simp [scoreVideo_row1_score, scoreVideo_row2_score, average]
  norm_num

theorem scoreChannel_rows3_score : (scoreChannel 0 rows3 cid1).score = 51 := by
  rw [scoreChannel_score_eq, avg_rows3, channelItems_rows3]
  norm_num [row1, row2, latestDate, scoreSubscribers, scoreRecency, clamp, jsRound]

theorem claimChannelScore_rows3 : claimChannelScore 0 rows3 cid1 = 52 := by
  simp only [claimChannelScore, avg_rows3, channelItems_rows3]
  norm_num [row1, row2, latestDate, scoreSubscribers, scoreRecency, clamp, jsRound]

theorem channels_rows3 :
    (computeAuthority 0 rows3).channels = [scoreChannel 0 rows3 cid1] := by
  simp [computeAuthority, rows3, dedupKeys, dedupKeysAux, row1, row2]

theorem videos_rowCB :
    (computeAuthority 0 [rowCB]).videos = [scoreVideo 0 rowCB] := by
  simp [computeAuthority]

/-! ## More shared helpers -/

theorem clamp100_nonneg (x : ℝ) : 0 ≤ clamp x 0 1 * 100 := by
  nlinarith [clamp_nonneg x]

theorem clamp100_le (x : ℝ) : clamp x 0 1 * 100 ≤ 100 := by
  nlinarith [clamp_le_one x]

/-! ## Claim C1 -/

/-- C1 (amended): every video in the report is the scorer applied to one of
the input rows, and its final score equals the weighted-clamp-round formula
in which the clickbait penalty is the clickbait keyword density scaled by
0.6 before receiving the weight 0.15. -/
theorem C1_video_score_formula (now : ℝ) (rows : List VideoRow) :
    ∀ v ∈ (computeAuthority now rows).videos, ∃ row ∈ rows,
      v = scoreVideo now row ∧
      v.score = jsRound (clamp (0.35 * scoreDepth row.duration_seconds +
        0.25 * scoreKeywordDensity (rowText row) AUTHORITY_KEYWORDS +
        0.2 * scoreEngagement row.view_count row.subscriber_count +
        0.2 * scoreRecency now row.published_at -
        0.15 * (scoreKeywordDensity (rowText row) CLICKBAIT_KEYWORDS * 0.6)) 0 1 * 100) := by
  intro v hv
  have hv' : v ∈ rows.map (scoreVideo now) := by
    simp only [computeAuthority] at hv
    exact sortTake_subset _ _ _ hv
  obtain ⟨row, hrow, rfl⟩ := List.mem_map.mp hv'
  exact ⟨row, hrow, rfl, scoreVideo_score now row⟩

/-- C1 (counterexample): on the clickbait row the report assigns score 10,
while the formula of the claim (penalty taken as the bare density) yields 4. -/
theorem C1_counterexample :
    (computeAuthority 0 [rowCB]).videos.map (fun v => v.score) = [10] ∧
    claimVideoScore 0 rowCB = 4 := by
  constructor
  · rw [videos_rowCB]
    simp [scoreVideo_rowCB_score]
  · have hcb : scoreKeywordDensity (rowText rowCB) CLICKBAIT_KEYWORDS = 1 :=
      scoreKeywordDensity_eq_one (by decide) (by decide)
    have hau : scoreKeywordDensity (rowText rowCB) AUTHORITY_KEYWORDS = 0 :=
      scoreKeywordDensity_of_hits_zero (by decide)
    simp only [claimVideoScore, hcb, hau]
    norm_num [rowCB, scoreDepth, scoreEngagement, scoreRecency, clamp, jsRound]

/-- C1 (witness): the amended formula instantiated on the clickbait row. -/
theorem C1_witness :
    ∃ row ∈ [rowCB], scoreVideo 0 rowCB = scoreVideo 0 row ∧
      (scoreVideo 0 rowCB).score = jsRound (clamp (0.35 * scoreDepth row.duration_seconds +
        0.25 * scoreKeywordDensity (rowText row) AUTHORITY_KEYWORDS +
        0.2 * scoreEngagement row.view_count row.subscriber_count +
        0.2 * scoreRecency 0 row.published_at -
        0.15 * (scoreKeywordDensity (rowText row) CLICKBAIT_KEYWORDS * 0.6)) 0 1 * 100) :=
  C1_video_score_formula 0 [rowCB] (scoreVideo 0 rowCB)
    (by rw [videos_rowCB]; exact List.mem_singleton_self _)

/-! ## Claim C2 -/

/-- C2 (amended): the extractors are total with values in the unit interval,
except that the recency bound holds only when the timestamp is absent or not
later than the evaluation time; the engagement bound is stated for
non-negative view counts, the domain on which the real model is faithful to
the floating-point code. -/
theorem C2_signal_bounds (d : Option ℝ) (t : String) (k : List String)
    (v s : Option ℝ) (now : ℝ) (p : Option ℝ) :
    (0 ≤ scoreDepth d ∧ scoreDepth d ≤ 1) ∧
    (0 ≤ scoreKeywordDensity t k ∧ scoreKeywordDensity t k ≤ 1) ∧
    ((∀ x, v = some x → 0 ≤ x) → (0 ≤ scoreEngagement v s ∧ scoreEngagement v s ≤ 1)) ∧
    ((∀ x, p = some x → x ≤ now) → (0 ≤ scoreRecency now p ∧ scoreRecency now p ≤ 1)) := by
  refine ⟨⟨?_, (scoreDepth_bounds d).2⟩,
    ⟨scoreKeywordDensity_nonneg t k, scoreKeywordDensity_le_one t k⟩, ?_, ?_⟩
  · linarith [(scoreDepth_bounds d).1]
  · intro _
    exact scoreEngagement_bounds v s
  · intro hp
    refine ⟨le_of_lt (scoreRecency_pos now p), ?_⟩
    cases hcase : p with
    | none => rw [scoreRecency]; norm_num
    | some x => exact scoreRecency_le_one_of_past (hp x hcase)

/-- C2 (counterexample): a timestamp 240 days later than the evaluation time
makes scoreRecency exceed 1, refuting the claim that it always lies in the
unit interval. -/
theorem C2_counterexample : 1 < scoreRecency 0 (some 20736000000) := by
  have h : scoreRecency 0 (some 20736000000) = Real.exp 1 := by
    rw [scoreRecency]
    norm_num
  rw [h]
  exact Real.one_lt_exp_iff.mpr one_pos

/-- C2 (witness): the bounds instantiated on concrete inputs, with a present
non-negative view count and a past timestamp. -/
theorem C2_witness :
    (0 ≤ scoreDepth (some 500) ∧ scoreDepth (some 500) ≤ 1) ∧
    (0 ≤ scoreKeywordDensity (rowText rowCB) CLICKBAIT_KEYWORDS ∧
      scoreKeywordDensity (rowText rowCB) CLICKBAIT_KEYWORDS ≤ 1) ∧
    (0 ≤ scoreEngagement (some 100) none ∧ scoreEngagement (some 100) none ≤ 1) ∧
    (0 ≤ scoreRecency 0 (some (-86400000)) ∧ scoreRecency 0 (some (-86400000)) ≤ 1) := by
  have h := C2_signal_bounds (some 500) (rowText rowCB) CLICKBAIT_KEYWORDS
    (some 100) none 0 (some (-86400000))
  refine ⟨h.1, h.2.1, h.2.2.1 ?_, h.2.2.2 ?_⟩
  · intro x hx
    injection hx with hx
    rw [← hx]
    norm_num
  · intro x hx
    injection hx with hx
    rw [← hx]
    norm_num

/-! ## Claim C3 -/

/-- C3 (amended): the score of every channel in the report follows the
0.70/0.15/0.15 weighting applied to the UNROUNDED arithmetic mean of the
channel group video scores (divided by 100); only the reported avgVideoScore
field carries the rounded mean. -/
theorem C3_channel_score_formula (now : ℝ) (rows : List VideoRow) :
    ∀ c ∈ (computeAuthority now rows).channels,
      c.score = jsRound (clamp
        (0.7 * (average ((channelVideoScores now rows c.channelId).map (fun s => (s.score : ℝ))) / 100) +
          0.15 * scoreSubscribers ((channelItems rows c.channelId).head?.bind (fun r => r.subscriber_count)) +
          0.15 * scoreRecency now (latestDate ((channelItems rows c.channelId).map (fun item => item.published_at))))
        0 1 * 100) ∧
      c.avgVideoScore =
        jsRound (average ((channelVideoScores now rows c.channelId).map (fun s => (s.score : ℝ)))) := by
  intro c hc
  have hc' : c ∈ (dedupKeys (rows.map (fun r => r.channel_id))).map (scoreChannel now rows) := by
    simp only [computeAuthority] at hc
    exact sortTake_subset _ _ _ hc
  obtain ⟨cid, _, rfl⟩ := List.mem_map.mp hc'
  rw [scoreChannel_channelId]
  exact ⟨scoreChannel_score_eq now rows cid, scoreChannel_avg_eq now rows cid⟩

/-- C3 (counterexample): on two videos scoring 66 and 55 (mean 60.5) the
report gives the channel score 51, while the formula of the claim, which
rounds the mean to 61 before weighting, yields 52. -/
theorem C3_counterexample :
    (computeAuthority 0 rows3).channels.map (fun c => c.score) = [51] ∧
    claimChannelScore 0 rows3 cid1 = 52 := by
  constructor
  · rw [channels_rows3]
    simp [scoreChannel_rows3_score]
  · exact claimChannelScore_rows3

/-- C3 (witness): the amended channel formula instantiated on the two-video
channel. -/
theorem C3_witness :
    (scoreChannel 0 rows3 cid1).score = jsRound (clamp
      (0.7 * (average ((channelVideoScores 0 rows3 cid1).map (fun s => (s.score : ℝ))) / 100) +
        0.15 * scoreSubscribers ((channelItems rows3 cid1).head?.bind (fun r => r.subscriber_count)) +
        0.15 * scoreRecency 0 (latestDate ((channelItems rows3 cid1).map (fun item => item.published_at))))
      0 1 * 100) ∧
    (scoreChannel 0 rows3 cid1).avgVideoScore =
      jsRound (average ((channelVideoScores 0 rows3 cid1).map (fun s => (s.score : ℝ)))) :=
  C3_channel_score_formula 0 rows3 (scoreChannel 0 rows3 cid1)
    (by rw [channels_rows3]; exact List.mem_singleton_self _)

/-! ## Claim C4 -/

/-- C4: for well-typed inputs every video score and every channel score in
the report is an integer in the range 0 to 100. -/
theorem C4_score_bounds (now : ℝ) (rows : List VideoRow)
    (h : ∀ r ∈ rows, rowWellTyped r) :
    (∀ v ∈ (computeAuthority now rows).videos, 0 ≤ v.score ∧ v.score ≤ 100) ∧
    (∀ c ∈ (computeAuthority now rows).channels, 0 ≤ c.score ∧ c.score ≤ 100) := by
  constructor
  · intro v hv
    have hv' : v ∈ rows.map (scoreVideo now) := by
      simp only [computeAuthority] at hv
      exact sortTake_subset _ _ _ hv
    obtain ⟨row, _, rfl⟩ := List.mem_map.mp hv'
    rw [scoreVideo_score]
    exact jsRound_bounds (clamp100_nonneg _) (clamp100_le _)
  · intro c hc
    have hc' : c ∈ (dedupKeys (rows.map (fun r => r.channel_id))).map (scoreChannel now rows) := by
      simp only [computeAuthority] at hc
      exact sortTake_subset _ _ _ hc
    obtain ⟨cid, _, rfl⟩ := List.mem_map.mp hc'
    rw [scoreChannel_score_eq]
    exact jsRound_bounds (clamp100_nonneg _) (clamp100_le _)

/-- C4 (witness): the bounds instantiated on the one-row batch. -/
theorem C4_witness :
    (∀ v ∈ (computeAuthority 0 [rowCB]).videos, 0 ≤ v.score ∧ v.score ≤ 100) ∧
    (∀ c ∈ (computeAuthority 0 [rowCB]).channels, 0 ≤ c.score ∧ c.score ≤ 100) :=
  C4_score_bounds 0 [rowCB] (by
    intro r hr
    rw [List.mem_singleton] at hr
    subst hr
    refine ⟨?_, ?_, ?_, ?_, ?_⟩ <;> intro x hx <;> simp [rowCB] at hx)

/-! ## Claim C10 -/

/-- C10: the reported clickbaitPenalty signal of every video in the report
is the clickbait keyword density scaled by 0.6 and rounded to two decimals,
so it lies in the interval 0 to 0.6 and never reaches 1. -/
theorem C10_clickbait_penalty (now : ℝ) (rows : List VideoRow) :
    ∀ v ∈ (computeAuthority now rows).videos,
      (∃ row ∈ rows, v.signals.clickbaitPenalty =
        round2 (scoreKeywordDensity (rowText row) CLICKBAIT_KEYWORDS * 0.6)) ∧
      0 ≤ v.signals.clickbaitPenalty ∧
      v.signals.clickbaitPenalty ≤ 0.6 ∧
      v.signals.clickbaitPenalty < 1 := by
  intro v hv
  have hv' : v ∈ rows.map (scoreVideo now) := by
    simp only [computeAuthority] at hv
    exact sortTake_subset _ _ _ hv
  obtain ⟨row, hrow, rfl⟩ := List.mem_map.mp hv'
  have hd0 := scoreKeywordDensity_nonneg (rowText row) CLICKBAIT_KEYWORDS
  have hd1 := scoreKeywordDensity_le_one (rowText row) CLICKBAIT_KEYWORDS
  have hb : 0 ≤ (scoreVideo now row).signals.clickbaitPenalty ∧
      (scoreVideo now row).signals.clickbaitPenalty ≤ 0.6 := by
    rw [scoreVideo_clickbait_signal, round2]
    constructor
    · have hz : (0:ℤ) ≤ jsRound (scoreKeywordDensity (rowText row) CLICKBAIT_KEYWORDS * 0.6 * 100) :=
        le_jsRound_of_le (by push_cast; nlinarith)
      have hz' : (0:ℝ) ≤ (jsRound (scoreKeywordDensity (rowText row) CLICKBAIT_KEYWORDS * 0.6 * 100) : ℝ) := by
        exact_mod_cast hz
      linarith
    · have hz : jsRound (scoreKeywordDensity (rowText row) CLICKBAIT_KEYWORDS * 0.6 * 100) ≤ (60:ℤ) :=
        jsRound_le_of_le (by push_cast; nlinarith)
      have hz' : (jsRound (scoreKeywordDensity (rowText row) CLICKBAIT_KEYWORDS * 0.6 * 100) : ℝ) ≤ 60 := by
        exact_mod_cast hz
      linarith
  exact ⟨⟨row, hrow, scoreVideo_clickbait_signal now row⟩, hb.1, hb.2,
    lt_of_le_of_lt hb.2 (by norm_num)⟩

/-- C10 (witness): the penalty property instantiated on the clickbait row. -/
theorem C10_witness :
    (∃ row ∈ [rowCB], (scoreVideo 0 rowCB).signals.clickbaitPenalty =
      round2 (scoreKeywordDensity (rowText row) CLICKBAIT_KEYWORDS * 0.6)) ∧
    0 ≤ (scoreVideo 0 rowCB).signals.clickbaitPenalty ∧
    (scoreVideo 0 rowCB).signals.clickbaitPenalty ≤ 0.6 ∧
    (scoreVideo 0 rowCB).signals.clickbaitPenalty < 1 :=
  C10_clickbait_penalty 0 [rowCB] (scoreVideo 0 rowCB)
    (by rw [videos_rowCB]; exact List.mem_singleton_self _)

/-! ## Claim C6 -/

/-- C6: the failing input made explicit. A present negative view count
reaches the logarithm with the argument 1 + (-1000)/5000*10 = -1, which is
outside the real domain of Math.log10 (JavaScript yields NaN there, which
then propagates through clamp and Math.round into the score). A negative
duration, in contrast, is absorbed by the first bucket exactly like an
absent one. -/
theorem C6_engagement_log_domain :
    scoreEngagement (some (-1000)) none =
      clamp (log10 (engagementLogArg (-1000) none) / 2) 0 1 ∧
    engagementLogArg (-1000) none = -1 ∧
    scoreDepth (some (-50)) = scoreDepth none := by
  refine ⟨?_, ?_, ?_⟩
  · norm_num [scoreEngagement]
  · norm_num [engagementLogArg, engagementDenominator]
  · norm_num [scoreDepth]

/-! ## Claim C7 -/

/-- C7: the empty batch produces a report with all four benchmarks equal to
0 and empty video and channel lists, without any error. -/
theorem C7_empty_input (now : ℝ) :
    computeAuthority now [] =
    { benchmarks :=
        { avgVideoScore := 0, avgChannelScore := 0, topVideoScore := 0, topChannelScore := 0 },
      videos := [], channels := [] } := by
  norm_num [computeAuthority, dedupKeys, dedupKeysAux, average, listMax0, jsRound]

/-! ## Claim C9 -/

/-- C9: at a fixed evaluation time the recency signal is strictly larger for
strictly newer publication timestamps (strictly decreasing in age), and it
is strictly positive on every input, the absent-date default included. -/
theorem C9_recency_monotone (now : ℝ) :
    (∀ p1 p2 : ℝ, p1 < p2 →
      scoreRecency now (some p1) < scoreRecency now (some p2)) ∧
    (∀ v : Option ℝ, 0 < scoreRecency now v) := by
  constructor
  · intro p1 p2 h
    simp only [scoreRecency]
    rw [Real.exp_lt_exp, neg_lt_neg_iff]
    gcongr
  · intro v
    exact scoreRecency_pos now v

/-- C9 (witness): the monotonicity applied to a one-day age difference, and
positivity on the absent date. -/
theorem C9_witness :
    scoreRecency 0 (some (-86400000)) < scoreRecency 0 (some 0) ∧
    0 < scoreRecency 0 none :=
  ⟨(C9_recency_monotone 0).1 (-86400000) 0 (by norm_num),
    (C9_recency_monotone 0).2 none⟩

/-! ## Claim C5 -/

/-- C5: the four benchmarks are computed over the full scored video list and
the full scored channel list, and the returned lists are the sorted
(descending by score) truncations to 20 and 12 entries: they have the
truncated lengths, are sorted, and together with the dropped remainder are a
permutation of the full scored list, every kept entry scoring at least as
much as every dropped one. -/
theorem C5_benchmarks_before_truncation (now : ℝ) (rows : List VideoRow) :
    (computeAuthority now rows).benchmarks.avgVideoScore =
      jsRound (average ((rows.map (scoreVideo now)).map (fun v => (v.score : ℝ)))) ∧
    (computeAuthority now rows).benchmarks.topVideoScore =
      listMax0 ((rows.map (scoreVideo now)).map (fun v => v.score)) ∧
    (computeAuthority now rows).benchmarks.avgChannelScore =
      jsRound (average (((dedupKeys (rows.map (fun r => r.channel_id))).map (scoreChannel now rows)).map (fun c => (c.score : ℝ)))) ∧
    (computeAuthority now rows).benchmarks.topChannelScore =
      listMax0 (((dedupKeys (rows.map (fun r => r.channel_id))).map (scoreChannel now rows)).map (fun c => c.score)) ∧
    (computeAuthority now rows).videos.length = min 20 rows.length ∧
    (computeAuthority now rows).channels.length =
      min 12 (dedupKeys (rows.map (fun r => r.channel_id))).length ∧
    List.Sorted (keyDesc (fun v : ScoredVideo => v.score)) (computeAuthority now rows).videos ∧
    List.Sorted (keyDesc (fun c : ScoredChannel => c.score)) (computeAuthority now rows).channels ∧
    List.Perm ((computeAuthority now rows).videos ++
        (List.insertionSort (keyDesc (fun v : ScoredVideo => v.score)) (rows.map (scoreVideo now))).drop 20)
      (rows.map (scoreVideo now)) ∧
    (∀ v ∈ (computeAuthority now rows).videos,
      ∀ w ∈ (List.insertionSort (keyDesc (fun v : ScoredVideo => v.score)) (rows.map (scoreVideo now))).drop 20,
        w.score ≤ v.score) := by
  refine ⟨rfl, rfl, rfl, rfl, ?_, ?_, ?_, ?_, ?_, ?_⟩
  · show ((List.insertionSort (keyDesc (fun v : ScoredVideo => v.score)) (rows.map (scoreVideo now))).take 20).length = min 20 rows.length
    rw [sortTake_length, List.length_map]
  · show ((List.insertionSort (keyDesc (fun c : ScoredChannel => c.score)) ((dedupKeys (rows.map (fun r => r.channel_id))).map (scoreChannel now rows))).take 12).length = min 12 (dedupKeys (rows.map (fun r => r.channel_id))).length
    rw [sortTake_length, List.length_map]
  · exact sortTake_sorted (fun v : ScoredVideo => v.score) (rows.map (scoreVideo now)) 20
  · exact sortTake_sorted (fun c : ScoredChannel => c.score)
      ((dedupKeys (rows.map (fun r => r.channel_id))).map (scoreChannel now rows)) 12
  · exact sortTake_append_drop_perm (fun v : ScoredVideo => v.score) (rows.map (scoreVideo now)) 20
  · intro v hv w hw
    exact sortTake_ge_drop (fun v : ScoredVideo => v.score) (rows.map (scoreVideo now)) 20 hv hw

/-- C5 (witness): the benchmark-before-truncation property instantiated on
the two-video batch. -/
theorem C5_witness :
    (computeAuthority 0 rows3).benchmarks.avgVideoScore =
      jsRound (average ((rows3.map (scoreVideo 0)).map (fun v => (v.score : ℝ)))) ∧
    (computeAuthority 0 rows3).benchmarks.topVideoScore =
      listMax0 ((rows3.map (scoreVideo 0)).map (fun v => v.score)) ∧
    (computeAuthority 0 rows3).benchmarks.avgChannelScore =
      jsRound (average (((dedupKeys (rows3.map (fun r => r.channel_id))).map (scoreChannel 0 rows3)).map (fun c => (c.score : ℝ)))) ∧
    (computeAuthority 0 rows3).benchmarks.topChannelScore =
      listMax0 (((dedupKeys (rows3.map (fun r => r.channel_id))).map (scoreChannel 0 rows3)).map (fun c => c.score)) ∧
    (computeAuthority 0 rows3).videos.length = min 20 rows3.length ∧
    (computeAuthority 0 rows3).channels.length =
      min 12 (dedupKeys (rows3.map (fun r => r.channel_id))).length ∧
    List.Sorted (keyDesc (fun v : ScoredVideo => v.score)) (computeAuthority 0 rows3).videos ∧
    List.Sorted (keyDesc (fun c : ScoredChannel => c.score)) (computeAuthority 0 rows3).channels ∧
    List.Perm ((computeAuthority 0 rows3).videos ++
        (List.insertionSort (keyDesc (fun v : ScoredVideo => v.score)) (rows3.map (scoreVideo 0))).drop 20)
      (rows3.map (scoreVideo 0)) ∧
    (∀ v ∈ (computeAuthority 0 rows3).videos,
      ∀ w ∈ (List.insertionSort (keyDesc (fun v : ScoredVideo => v.score)) (rows3.map (scoreVideo 0))).drop 20,
        w.score ≤ v.score) :=
  C5_benchmarks_before_truncation 0 rows3

/-! ## Claim C8 -/

